import Mathlib

/-!
Verification development for the MXDL repository's server-status logic.

The repository contains two revisions of a `ServerStatusManager` class:
`src/script.js` (single legacy upstream API, with client-side ping
normalization) and `src/unnamed/part_000` (dual upstream APIs: a primary
"new" API enriched by / falling back to the legacy API).  Both share the
same caching `getServerStatus` method and a `renderMOTD` helper.

JavaScript dynamic values are embedded as the inductive `JSVal`; property
access, truthiness, `||`, `&&`, optional chaining and spread-copy are
modelled by total functions that agree with JavaScript on every value the
code can actually reach (places where JavaScript would throw a `TypeError`
are modelled with `Option`, noted at each definition).
-/

/-- A JavaScript (JSON-extended) value: `undefined`, `null`, booleans,
numbers (modelled as rationals; the code never relies on float artifacts),
strings, arrays and objects (ordered field lists). -/
inductive JSVal where
  | undefined
  | null
  | bool (b : Bool)
  | num (q : ℚ)
  | str (s : String)
  | arr (elems : List JSVal)
  | obj (fields : List (String × JSVal))

/-- JavaScript truthiness: `undefined`, `null`, `false`, `0` and `""` are
falsy; every other value (including empty arrays and objects) is truthy. -/
def truthy : JSVal → Bool
  | .undefined => false
  | .null => false
  | .bool b => b
  | .num q => decide (q ≠ 0)
  | .str s => decide (s ≠ "")
  | .arr _ => true
  | .obj _ => true

/-- Property access `v.k`, returning `undefined` when the field is missing
or the receiver is not an object.  This matches JavaScript on objects and
on primitive receivers; the code only dereferences `null`/`undefined`
behind `&&` guards or `?.`, whose short-circuit the callers reproduce. -/
def JSVal.get : JSVal → String → JSVal
  | .obj fields, k =>
    match fields.lookup k with
    | some v => v
    | none => .undefined
  | _, _ => .undefined

/-- Iterated property access along a path. -/
def getPath (v : JSVal) (p : List String) : JSVal :=
  p.foldl JSVal.get v

/-- JavaScript `a || b`: the left operand when truthy, otherwise the right. -/
def jsOr (a b : JSVal) : JSVal :=
  if truthy a then a else b

/-- JavaScript `a && b`: the right operand when the left is truthy,
otherwise the left. -/
def jsAnd (a b : JSVal) : JSVal :=
  if truthy a then b else a

/-- Indexing `v[i]` with a numeric literal: array element, string
character, or object lookup of the decimal key. -/
def jsIdx (v : JSVal) (i : ℕ) : JSVal :=
  match v with
  | .arr xs =>
    match xs.get? i with
    | some x => x
    | none => .undefined
  | .str s =>
    match s.data.get? i with
    | some c => .str (String.mk [c])
    | none => .undefined
  | .obj _ => v.get (toString i)
  | _ => .undefined

/-- The `.length` property: defined on arrays and strings, `undefined`
elsewhere (the code only compares it with `> 0`). -/
def jsLength : JSVal → JSVal
  | .arr xs => .num xs.length
  | .str s => .num s.length
  | _ => .undefined

/-- A `v > 0` comparison as the code uses it on `.length`: true only on a
positive number (`undefined > 0` is false in JavaScript). -/
def jsGtZero : JSVal → Bool
  | .num q => decide (0 < q)
  | _ => false

/-- Strict equality against the number literal `200` (`v === 200`). -/
def isNum200 : JSVal → Bool
  | .num q => decide (q = 200)
  | _ => false

/-- `v === undefined`. -/
def isUndefined : JSVal → Bool
  | .undefined => true
  | _ => false

/-- `Array.isArray v`. -/
def isArray : JSVal → Bool
  | .arr _ => true
  | _ => false

/-- `v === null || v === undefined`: the values on which bare property
access throws a `TypeError` in JavaScript. -/
def isNullish : JSVal → Bool
  | .null => true
  | .undefined => true
  | _ => false

/-- A value on which bare property access does not throw in JavaScript
(everything except `null` and `undefined`). -/
def nonNullish (v : JSVal) : Prop :=
  isNullish v = false

/-- Update of an association list, replacing the first binding of the key
in place, or appending a new binding (the update discipline of both a
JavaScript object literal and a `Map.set`). -/
def updAssoc {α β : Type} [BEq α] : List (α × β) → α → β → List (α × β)
  | [], k, v => [(k, v)]
  | (k0, v0) :: rest, k, v =>
    if k0 == k then (k, v) :: rest else (k0, v0) :: updAssoc rest k v

/-- The object-spread-with-override `{...d, k: v}` used by
`getServerStatus`.  On the non-object values the cache can never hold, the
spread contributes no fields. -/
def objSet (d : JSVal) (k : String) (v : JSVal) : JSVal :=
  match d with
  | .obj fields => .obj (updAssoc fields k v)
  | _ => .obj [(k, v)]

/-- `Math.round` on a finite number: floor of the value plus one half. -/
def jsRound (q : ℚ) : ℤ :=
  ⌊q + 1 / 2⌋

mutual

/-- JavaScript `String(v)` as used by template literals and
`Array.prototype.join` element conversion (numeric formatting is
approximated; no theorem below depends on the digits of a non-integer). -/
def jsToStr : JSVal → String
  | .undefined => "undefined"
  | .null => "null"
  | .bool b => if b then "true" else "false"
  | .num q => if q.den = 1 then toString q.num else toString q.num ++ "/" ++ toString q.den
  | .str s => s
  | .obj _ => "[object Object]"
  | .arr xs => joinWithSep "," xs

/-- `Array.prototype.join(sep)`: elements converted with `String(·)`
except `null`/`undefined`, which contribute the empty string.  Total: a
JavaScript array join never throws. -/
def joinWithSep (sep : String) : List JSVal → String
  | [] => ""
  | [v] =>
    match v with
    | .null => ""
    | .undefined => ""
    | v' => jsToStr v'
  | v :: rest =>
    (match v with
     | .null => ""
     | .undefined => ""
     | v' => jsToStr v') ++ sep ++ joinWithSep sep rest

end

/-! ### The shared caching front end (`getServerStatus`, identical in both
`src/script.js` and `src/unnamed/part_000`). -/

/-- A cache entry: the fetched data together with the `Date.now()` value at
which it was stored. -/
structure CacheEntry where
  data : JSVal
  timestamp : ℤ

/-- The mutable state of a `ServerStatusManager`: the address-keyed cache
and the 30,000 ms TTL set by the constructor. -/
structure Manager where
  cache : List (String × CacheEntry)
  cacheTimeout : ℤ

/-- Result of one `getServerStatus` call: the value returned or the
propagated failure, the manager state afterwards, and whether the call
invoked `fetchServerStatus` (i.e. attempted network access). -/
structure GetResult where
  result : Except Unit JSVal
  state : Manager
  network : Bool

/-- The refresh attempt taken on a cache miss or expired entry: on fetch
success store `{data, timestamp: now}` and return `{...fresh,
fromCache: false}`; on fetch failure return the (stale) cached data as
`{...cached.data, fromCache: true, error: true}` when an entry exists,
otherwise rethrow. -/
def getAttempt (m : Manager) (addr : String) (now : ℤ)
    (fetched : Option JSVal) (cached : Option CacheEntry) : GetResult :=
  match fetched with
  | some fresh =>
    { result := .ok (objSet fresh "fromCache" (.bool false)),
      state := { m with cache := updAssoc m.cache addr ⟨fresh, now⟩ },
      network := true }
  | none =>
    match cached with
    | some e =>
      { result := .ok (objSet (objSet e.data "fromCache" (.bool true)) "error" (.bool true)),
        state := m, network := true }
    | none => { result := .error (), state := m, network := true }

/-- `getServerStatus(serverAddress)`, with the outcome of
`fetchServerStatus` supplied as an oracle (`none` models a thrown fetch):
a cache entry younger than the TTL is returned as `{...cached.data,
fromCache: true}` with no network access; otherwise a refresh is
attempted. -/
def getServerStatus (m : Manager) (addr : String) (now : ℤ)
    (fetched : Option JSVal) : GetResult :=
  let cached := m.cache.lookup addr
  match cached with
  | some e =>
    if now - e.timestamp < m.cacheTimeout then
      { result := .ok (objSet e.data "fromCache" (.bool true)),
        state := m, network := false }
    else
      getAttempt m addr now fetched cached
  | none => getAttempt m addr now fetched cached

/-! ### The dual-API revision (`src/unnamed/part_000`). -/

namespace DualApi

/-- `processServerData(newApiData, oldApiData)` of `part_000`: the merge of
the primary ("new") API record with the optional legacy ("old") API
record into the canonical status object.  Total model; in the fetch flow
the first argument is always an object (a validated primary response or
the converter's output), so the bare accesses on it never throw. -/
def processServerData (n o : JSVal) : JSVal :=
  let pingValue : JSVal := .null
  let playersList : JSVal :=
    if truthy o && truthy (o.get "players") && truthy ((o.get "players").get "list") then
      (o.get "players").get "list"
    else .arr []
  let icon : JSVal :=
    if truthy o && truthy (o.get "icon") then o.get "icon"
    else if truthy (n.get "favicon_url") then n.get "favicon_url"
    else .null
  let playersOnline : JSVal :=
    jsOr (n.get "players")
      (if truthy (jsAnd o (o.get "players")) then (o.get "players").get "online" else .num 0)
  let playersMax : JSVal :=
    jsOr (n.get "max_players")
      (if truthy (jsAnd o (o.get "players")) then (o.get "players").get "max" else .num 0)
  .obj [
    ("online", jsOr (n.get "online") (.bool false)),
    ("ip", jsOr (n.get "ip") (jsOr (jsAnd o (o.get "ip")) (.str "未知"))),
    ("port", jsOr (n.get "port") (jsOr (jsAnd o (o.get "port")) (.str "未知"))),
    ("hostname", jsOr (n.get "hostname") (jsOr (jsAnd o (o.get "hostname")) (.str "未知"))),
    ("icon", icon),
    ("version", jsOr (n.get "version") (jsOr (jsAnd o (o.get "version")) (.str "未知"))),
    ("protocol", jsOr (jsAnd o (o.get "protocol")) (.str "未知")),
    ("protocolName", jsOr (jsAnd o (o.get "protocolName")) (.str "未知")),
    ("players", .obj [
      ("online", playersOnline),
      ("max", playersMax),
      ("list", playersList)]),
    ("motd", .obj [
      ("raw", jsOr (jsAnd (jsAnd o (o.get "motd")) ((o.get "motd").get "raw")) (.arr [])),
      ("clean", .arr [jsOr (n.get "motd_clean")
        (jsOr (jsAnd (jsAnd (jsAnd o (o.get "motd")) ((o.get "motd").get "clean"))
          (jsIdx ((o.get "motd").get "clean") 0)) (.str ""))]),
      ("html", .arr [jsOr (n.get "motd_html")
        (jsOr (jsAnd (jsAnd (jsAnd o (o.get "motd")) ((o.get "motd").get "html"))
          (jsIdx ((o.get "motd").get "html") 0)) (.str ""))])]),
    ("debug", .obj [
      ("ping", pingValue),
      ("query", jsOr (jsAnd (jsAnd o (o.get "debug")) ((o.get "debug").get "query")) (.bool false)),
      ("cacheHit", .bool false)]),
    ("software", jsOr (jsAnd o (o.get "software")) (.str "未知")),
    ("gamemode", jsOr (jsAnd o (o.get "gamemode")) (.str "生存")),
    ("map", jsOr (jsAnd o (o.get "map")) (.str "未知")),
    ("plugins", jsOr (jsAnd o (o.get "plugins")) (.arr []))]

/-- `convertOldApiToNewApiFormat(oldApiData)`: synthesizes a
primary-shaped record from a legacy response.  `none` models the
`TypeError` thrown on a nullish argument, or by `.join` when
`oldApiData.motd.clean` is a truthy non-array whose `.length > 0` (a
non-empty string). -/
def convertOldApiToNewApiFormat (old : JSVal) : Option JSVal :=
  if isNullish old then none
  else
    let cl := (old.get "motd").get "clean"
    let motdPair : Option (String × String) :=
      if truthy (old.get "motd") && truthy cl && jsGtZero (jsLength cl) then
        match cl with
        | .arr xs =>
          some (joinWithSep "\n" xs,
            String.intercalate "<br>"
              (xs.map fun line => "<span style=\"color: #ffffff\">" ++ jsToStr line ++ "</span>"))
        | _ => none
      else some ("", "")
    match motdPair with
    | none => none
    | some (motdClean, motdHtml) =>
      some (.obj [
        ("code", .num 200),
        ("online", jsOr (old.get "online") (.bool false)),
        ("ip", jsOr (old.get "ip") (.str "未知")),
        ("port", jsOr (old.get "port") (.str "未知")),
        ("hostname", jsOr (old.get "hostname") (.str "未知")),
        ("players", if truthy (old.get "players") then (old.get "players").get "online" else .num 0),
        ("max_players", if truthy (old.get "players") then (old.get "players").get "max" else .num 0),
        ("version", jsOr (old.get "version") (.str "未知")),
        ("motd_clean", .str motdClean),
        ("motd_html", .str motdHtml),
        ("favicon_url", jsOr (old.get "icon") .null)])

/-- The validity test on the primary response:
`newApiData && newApiData.code === 200 && newApiData.online !== undefined`. -/
def isNewApiValid (newApiData : JSVal) : Bool :=
  truthy newApiData && isNum200 (newApiData.get "code") && !isUndefined (newApiData.get "online")

/-- `fetchServerStatus(serverAddress)` of `part_000`, with the two
upstreams supplied as oracles: `newResp`/`oldResp` are the parsed JSON
bodies, `none` standing for a network error or a non-2xx response (both of
which leave the local data `null` for the primary, and throw on the
fallback path).  The overall `none` is the terminal "all APIs failed"
error. -/
def fetchServerStatus (newResp oldResp : Option JSVal) : Option JSVal :=
  let newApiData := newResp.getD .null
  if isNewApiValid newApiData then
    let oldApiData :=
      if truthy (newApiData.get "online") then oldResp.getD .null else .null
    some (processServerData newApiData oldApiData)
  else
    match oldResp with
    | some old =>
      match convertOldApiToNewApiFormat old with
      | some fallbackData => some (processServerData fallbackData old)
      | none => none
    | none => none

/-- `renderMOTD(motdHtml)` of `part_000`: empty string on falsy or
non-array input, otherwise `motdHtml.join('<br>')`.  Total: `join` never
throws. -/
def renderMOTD (motdHtml : JSVal) : String :=
  if truthy motdHtml = false ∨ isArray motdHtml = false then ""
  else
    match motdHtml with
    | .arr xs => joinWithSep "<br>" xs
    | _ => ""

end DualApi

/-! ### The single-API revision (`src/script.js`). -/

namespace ScriptJs

/-- The ping clean-up block at the top of `processServerData` in
`script.js`: `true` becomes `null`, a number is rounded with
`Math.round`, `false` and `undefined` become `null`, anything else is
passed through. -/
def normalizePing : JSVal → JSVal
  | .bool true => .null
  | .num q => .num ((jsRound q : ℤ) : ℚ)
  | .bool false => .null
  | .undefined => .null
  | v => v

/-- `processServerData(data)` of `script.js`: normalization of a legacy
API response, including the ping clean-up.  Total model; in the fetch flow
`data` is a parsed JSON body and the bare accesses on it throw only on a
nullish body, which the theorems below exclude where relevant. -/
def processServerData (data : JSVal) : JSVal :=
  let pingValue : JSVal := normalizePing ((data.get "debug").get "ping")
  .obj [
    ("online", jsOr (data.get "online") (.bool false)),
    ("ip", jsOr (data.get "ip") (.str "未知")),
    ("port", jsOr (data.get "port") (.str "未知")),
    ("hostname", jsOr (data.get "hostname") (.str "未知")),
    ("icon", jsOr (data.get "icon") .null),
    ("version", jsOr (data.get "version") (.str "未知")),
    ("protocol", jsOr (data.get "protocol") (.str "未知")),
    ("protocolName", jsOr (data.get "protocol_name") (.str "未知")),
    ("players", .obj [
      ("online", jsOr ((data.get "players").get "online") (.num 0)),
      ("max", jsOr ((data.get "players").get "max") (.num 0)),
      ("list", jsOr ((data.get "players").get "list") (.arr []))]),
    ("motd", .obj [
      ("raw", jsOr ((data.get "motd").get "raw") (.arr [])),
      ("clean", jsOr ((data.get "motd").get "clean") (.arr [])),
      ("html", jsOr ((data.get "motd").get "html") (.arr []))]),
    ("debug", .obj [
      ("ping", pingValue),
      ("query", jsOr ((data.get "debug").get "query") (.bool false)),
      ("cacheHit", jsOr ((data.get "debug").get "cachehit") (.bool false))]),
    ("software", jsOr (data.get "software") (.str "未知")),
    ("gamemode", jsOr (data.get "gamemode") (.str "生存")),
    ("map", jsOr (data.get "map") (.str "未知")),
    ("plugins", jsOr ((data.get "plugins").get "names") (.arr []))]

/-- The character class of the first replacement's regular expression
`[0-9a-fk-or]` — note that it contains `r`. -/
def mcCode (c : Char) : Bool :=
  (decide ('0' ≤ c) && decide (c ≤ '9')) ||
  (decide ('a' ≤ c) && decide (c ≤ 'f')) ||
  (decide ('k' ≤ c) && decide (c ≤ 'o')) ||
  decide (c = 'r')

/-- The span pair substituted for a marker `§c`. -/
def spanCloseOpen (c : Char) : List Char :=
  "</span><span class=\"mc-color-".data ++ [c] ++ "\">".data

/-- `line.replace(/§([0-9a-fk-or])/g, ...)`: left-to-right global
replacement of every marker by a close-then-open span pair. -/
def replaceColorMarkers : List Char → List Char
  | [] => []
  | c :: rest =>
    if c = '§' then
      match rest with
      | d :: rest2 =>
        if mcCode d then spanCloseOpen d ++ replaceColorMarkers rest2
        else c :: replaceColorMarkers (d :: rest2)
      | [] => [c]
    else c :: replaceColorMarkers rest

/-- `processedLine.replace(/§r/g, '</span><span>')`: global replacement of
the two-character reset marker by a close-then-plain-open span pair. -/
def replaceResetMarker : List Char → List Char
  | [] => []
  | c :: rest =>
    if c = '§' then
      match rest with
      | d :: rest2 =>
        if d = 'r' then "</span><span>".data ++ replaceResetMarker rest2
        else c :: replaceResetMarker (d :: rest2)
      | [] => [c]
    else c :: replaceResetMarker rest

/-- One line of `renderMOTD` in `script.js`: marker replacement, the
(dead, see `renderMOTD_reset_marker_not_plain`) `/§r/g` replacement, then
the start/end span guards (`startsWith('<span')` / `endsWith('</span>')`). -/
def processLine (line : String) : String :=
  let p1 := replaceResetMarker (replaceColorMarkers line.data)
  let p2 := if "<span".data.isPrefixOf p1 then p1 else "<span>".data ++ p1
  let p3 := if "</span>".data.isSuffixOf p2 then p2 else p2 ++ "</span>".data
  String.mk p3

/-- The body of `renderMOTD` on an array of line strings:
`motdHtml.map(processLine).join('<br>')`. -/
def renderLines (lines : List String) : String :=
  String.intercalate "<br>" (lines.map processLine)

/-- A `.map` callback argument that must be a string: `line.replace` on a
non-string throws, modelled by `none`. -/
def asStr : JSVal → Option String
  | .str s => some s
  | _ => none

/-- `motdHtml.map(line => ...)` evaluated left to right: the whole map
throws (`none`) at the first non-string element. -/
def mapLines : List JSVal → Option (List String)
  | [] => some []
  | v :: rest =>
    match asStr v with
    | some s => (mapLines rest).map (fun ss => s :: ss)
    | none => none

/-- `renderMOTD(motdHtml)` of `script.js`: empty string on falsy or
non-array input; on an array, each element is processed (a non-string
element makes the whole call throw, modelled by `none`). -/
def renderMOTD (motdHtml : JSVal) : Option String :=
  if truthy motdHtml = false ∨ isArray motdHtml = false then some ""
  else
    match motdHtml with
    | .arr xs => (mapLines xs).map renderLines
    | _ => some ""

end ScriptJs

/-! ### Helper lemmas about the JavaScript-value embedding. -/

theorem ne_undefined_of_truthy {v : JSVal} (h : truthy v = true) : v ≠ .undefined := by
  intro h2
  subst h2
  simp [truthy] at h

theorem truthy_of_get_ne_undefined {v : JSVal} {k : String} (h : v.get k ≠ .undefined) :
    truthy v = true := by
  cases v <;> simp [JSVal.get, truthy] at h ⊢

theorem jsOr_ne_undefined {a b : JSVal} (hb : b ≠ .undefined) : jsOr a b ≠ .undefined := by
  unfold jsOr
  split
  · exact ne_undefined_of_truthy (by assumption)
  · exact hb

theorem jsOr_of_truthy {a : JSVal} (b : JSVal) (h : truthy a = true) : jsOr a b = a := by
  simp [jsOr, h]

theorem jsOr_of_falsy {a : JSVal} (b : JSVal) (h : truthy a = false) : jsOr a b = b := by
  simp [jsOr, h]

theorem lookup_updAssoc_self {α β : Type} [BEq α] [LawfulBEq α]
    (l : List (α × β)) (k : α) (v : β) :
    (updAssoc l k v).lookup k = some v := by
  induction l with
  | nil => simp [updAssoc, List.lookup]
  | cons kv rest ih =>
    obtain ⟨k0, v0⟩ := kv
    by_cases h : k0 = k
    · subst h
      simp [updAssoc, List.lookup]
    · have h1 : (k0 == k) = false := beq_eq_false_iff_ne.mpr h
      have h2 : (k == k0) = false := beq_eq_false_iff_ne.mpr (Ne.symm h)
      simp [updAssoc, h1, List.lookup, h2, ih]

theorem lookup_updAssoc_other {α β : Type} [BEq α] [LawfulBEq α]
    (l : List (α × β)) (k k' : α) (v : β)
    (h : k' ≠ k) : (updAssoc l k v).lookup k' = l.lookup k' := by
  induction l with
  | nil =>
    simp [updAssoc, List.lookup, beq_eq_false_iff_ne.mpr h]
  | cons kv rest ih =>
    obtain ⟨k0, v0⟩ := kv
    by_cases h0 : k0 = k
    · subst h0
      simp [updAssoc, List.lookup, beq_eq_false_iff_ne.mpr h]
    · have h1 : (k0 == k) = false := beq_eq_false_iff_ne.mpr h0
      simp only [updAssoc, h1, Bool.false_eq_true, if_false, List.lookup, ih]

theorem objSet_get_same (d : JSVal) (k : String) (v : JSVal) : (objSet d k v).get k = v := by
  cases d <;> simp [objSet, JSVal.get, List.lookup, lookup_updAssoc_self]

theorem objSet_get_other (d : JSVal) (k k' : String) (v : JSVal) (h : k' ≠ k) :
    (objSet d k v).get k' = d.get k' := by
  cases d <;>
    simp [objSet, JSVal.get, List.lookup, beq_eq_false_iff_ne.mpr h,
      lookup_updAssoc_other _ _ _ _ h]

/-! ### C1, C2: the caching contract of `getServerStatus`. -/

/-- C1: `getServerStatus` raises exactly when the live refresh fails
(`fetched = none`) and no cache entry exists for the address; when the
refresh fails but a (however stale) entry exists, it returns that entry's
data extended with `fromCache = true` and `error = true`. -/
theorem getServerStatus_fails_only_without_cache
    (m : Manager) (addr : String) (now : ℤ) (fetched : Option JSVal) :
    ((getServerStatus m addr now fetched).result = .error () ↔
      fetched = none ∧ m.cache.lookup addr = none)
    ∧ (∀ e : CacheEntry, m.cache.lookup addr = some e →
        ¬(now - e.timestamp < m.cacheTimeout) → fetched = none →
        (getServerStatus m addr now fetched).result =
          .ok (objSet (objSet e.data "fromCache" (.bool true)) "error" (.bool true))) := by
  constructor
  · cases hc : m.cache.lookup addr with
    | none =>
      cases fetched <;> simp [getServerStatus, getAttempt, hc]
    | some e =>
      cases fetched <;> simp only [getServerStatus, getAttempt, hc] <;> split <;> simp
  · intro e he hstale hf
    subst hf
    simp [getServerStatus, getAttempt, he, hstale]

/-- Witness for C1 at a concrete stale entry and failed refresh. -/
theorem getServerStatus_fails_only_without_cache_witness :
    (getServerStatus ⟨[("a", ⟨.obj [("online", .bool true)], 0⟩)], 30000⟩ "a" 50000 none).result =
      .ok (objSet (objSet (.obj [("online", .bool true)]) "fromCache" (.bool true))
        "error" (.bool true)) := by
  exact (getServerStatus_fails_only_without_cache
    ⟨[("a", ⟨.obj [("online", .bool true)], 0⟩)], 30000⟩ "a" 50000 none).2
    ⟨.obj [("online", .bool true)], 0⟩ rfl (by decide) rfl

/-- Counterexample to C2 as stated: on a fresh cache hit the returned
value's `error` field is `undefined` (absent), not the boolean `false`
the claim requires. -/
theorem getServerStatus_cache_hit_error_absent :
    ((getServerStatus ⟨[("a", ⟨.obj [("online", .bool true)], 0⟩)], 30000⟩ "a" 1000 none).result =
      .ok (.obj [("online", .bool true), ("fromCache", .bool true)]))
    ∧ (JSVal.obj [("online", .bool true), ("fromCache", .bool true)]).get "error" = .undefined
    ∧ JSVal.undefined ≠ JSVal.bool false := by
  exact ⟨rfl, rfl, fun h => JSVal.noConfusion h⟩

/-- C2 (amended): a cache entry younger than the TTL is returned as a copy
of the cached data with `fromCache = true` and no network access (the
`error` field is left exactly as in the cached data — absent for data
stored by a successful refresh — rather than set to `false`); hence after
a first call that misses and fetches successfully, a second call for the
same address within 30,000 ms uses no network and returns the same data
up to the cache-flag fields. -/
theorem getServerStatus_cache_hit_single_roundtrip :
    (∀ (m : Manager) (addr : String) (now : ℤ) (fetched : Option JSVal) (e : CacheEntry),
      m.cache.lookup addr = some e → now - e.timestamp < m.cacheTimeout →
      getServerStatus m addr now fetched =
        ⟨.ok (objSet e.data "fromCache" (.bool true)), m, false⟩)
    ∧ (∀ (m : Manager) (addr : String) (t0 t1 : ℤ) (d : JSVal) (f2 : Option JSVal),
      m.cacheTimeout = 30000 → t1 - t0 < 30000 → m.cache.lookup addr = none →
      (getServerStatus m addr t0 (some d)).network = true ∧
      (getServerStatus m addr t0 (some d)).result = .ok (objSet d "fromCache" (.bool false)) ∧
      (getServerStatus (getServerStatus m addr t0 (some d)).state addr t1 f2).network = false ∧
      (getServerStatus (getServerStatus m addr t0 (some d)).state addr t1 f2).result =
        .ok (objSet d "fromCache" (.bool true)) ∧
      (∀ k : String, k ≠ "fromCache" → k ≠ "error" →
        (objSet d "fromCache" (.bool false)).get k =
          (objSet d "fromCache" (.bool true)).get k)) := by
  constructor
  · intro m addr now fetched e he hfresh
    simp [getServerStatus, he, hfresh]
  · intro m addr t0 t1 d f2 htmo hwin hnone
    have hfirst : getServerStatus m addr t0 (some d) =
        ⟨.ok (objSet d "fromCache" (.bool false)),
          { m with cache := updAssoc m.cache addr ⟨d, t0⟩ }, true⟩ := by
      simp [getServerStatus, getAttempt, hnone]
    have hlook : (updAssoc m.cache addr ⟨d, t0⟩).lookup addr = some ⟨d, t0⟩ :=
      lookup_updAssoc_self m.cache addr ⟨d, t0⟩
    have hsecond : getServerStatus { m with cache := updAssoc m.cache addr ⟨d, t0⟩ } addr t1 f2 =
        ⟨.ok (objSet d "fromCache" (.bool true)),
          { m with cache := updAssoc m.cache addr ⟨d, t0⟩ }, false⟩ := by
      simp [getServerStatus, hlook, htmo, hwin]
    refine ⟨by rw [hfirst], by rw [hfirst], ?_, ?_, ?_⟩
    · rw [hfirst, hsecond]
    · rw [hfirst, hsecond]
    · intro k hk1 hk2
      rw [objSet_get_other _ _ _ _ hk1, objSet_get_other _ _ _ _ hk1]

/-- Witness for the amended C2 at a concrete cold cache and a concrete
fetched value. -/
theorem getServerStatus_cache_hit_single_roundtrip_witness :
    (getServerStatus ⟨[], 30000⟩ "a" 0 (some (.obj [("online", .bool true)]))).network = true
    ∧ (getServerStatus (getServerStatus ⟨[], 30000⟩ "a" 0
        (some (.obj [("online", .bool true)]))).state "a" 1000 none).network = false
    ∧ (getServerStatus (getServerStatus ⟨[], 30000⟩ "a" 0
        (some (.obj [("online", .bool true)]))).state "a" 1000 none).result =
      .ok (objSet (.obj [("online", .bool true)]) "fromCache" (.bool true)) := by
  obtain ⟨h1, h2, h3, h4, h5⟩ := getServerStatus_cache_hit_single_roundtrip.2
    ⟨[], 30000⟩ "a" 0 1000 (.obj [("online", .bool true)]) none rfl (by decide) rfl
  exact ⟨h1, h3, h4⟩

/-! ### C3: primary-response validity and the full legacy fallback. -/

theorem isNum200_iff {v : JSVal} : isNum200 v = true ↔ v = .num 200 := by
  cases v <;> simp [isNum200]

theorem isUndefined_false_iff {v : JSVal} : isUndefined v = false ↔ v ≠ .undefined := by
  cases v <;> simp [isUndefined]

/-- C3: a primary response is treated as valid exactly when it parsed to a
value whose `code` is the number `200` and whose `online` field is
defined; on an invalid or absent primary response, `fetchServerStatus`
falls back entirely to the legacy API, converting the legacy record to
the primary shape before merging; concretely, an unreachable primary with
legacy `{online: true, players: {online: 3, max: 20}}` merges to
`online = true`, `players.online = 3`, `players.max = 20`. -/
theorem primary_validity_and_legacy_fallback :
    (∀ d : JSVal, DualApi.isNewApiValid d = true ↔
      (d.get "code" = .num 200 ∧ d.get "online" ≠ .undefined)) ∧
    (∀ (newResp : Option JSVal) (o fb : JSVal),
      DualApi.isNewApiValid (newResp.getD .null) = false →
      DualApi.convertOldApiToNewApiFormat o = some fb →
      DualApi.fetchServerStatus newResp (some o) =
        some (DualApi.processServerData fb o)) ∧
    (∀ newResp : Option JSVal,
      DualApi.isNewApiValid (newResp.getD .null) = false →
      DualApi.fetchServerStatus newResp none = none) ∧
    ((DualApi.fetchServerStatus none
        (some (.obj [("online", .bool true),
          ("players", .obj [("online", .num 3), ("max", .num 20)])]))).map
        (fun r => (r.get "online", getPath r ["players", "online"], getPath r ["players", "max"])) =
      some (.bool true, .num 3, .num 20)) := by
  refine ⟨?_, ?_, ?_, rfl⟩
  · intro d
    unfold DualApi.isNewApiValid
    constructor
    · intro h
      simp only [Bool.and_eq_true] at h
      obtain ⟨⟨-, hcode⟩, honline⟩ := h
      refine ⟨isNum200_iff.mp hcode, ?_⟩
      exact isUndefined_false_iff.mp (by simpa using honline)
    · rintro ⟨hcode, honline⟩
      have ht : truthy d = true :=
        truthy_of_get_ne_undefined (k := "code") (by rw [hcode]; exact fun h => JSVal.noConfusion h)
      simp [ht, isNum200_iff.mpr hcode, isUndefined_false_iff.mpr honline]
  · intro newResp o fb hinvalid hconv
    simp [DualApi.fetchServerStatus, hinvalid, hconv]
  · intro newResp hinvalid
    simp [DualApi.fetchServerStatus, hinvalid]

/-- Witness for C3: the fallback equation at a concrete invalid primary
(`none`) and a concrete legacy response. -/
theorem primary_validity_and_legacy_fallback_witness :
    DualApi.fetchServerStatus none (some (.obj [("online", .bool true)])) =
      some (DualApi.processServerData (.obj [
        ("code", .num 200), ("online", .bool true), ("ip", .str "未知"), ("port", .str "未知"),
        ("hostname", .str "未知"), ("players", .num 0), ("max_players", .num 0),
        ("version", .str "未知"), ("motd_clean", .str ""), ("motd_html", .str ""),
        ("favicon_url", .null)]) (.obj [("online", .bool true)])) :=
  primary_validity_and_legacy_fallback.2.1 none (.obj [("online", .bool true)]) _ rfl rfl

/-! ### C4, C5: the merge tie-break rules for `online`, `players.list`,
`players.online` and `players.max`. -/

/-- C4: in the merge, the `online` flag comes from the primary response
and `players.list` comes from the legacy response whenever the legacy
response supplies a list (empty array otherwise); concretely, a primary
`{code: 200, online: true}` merged with a legacy player list
`["Alice", "Bob"]` yields `online = true` and that exact list. -/
theorem merge_online_primary_list_legacy :
    (∀ (n o : JSVal) (b : Bool), n.get "online" = .bool b →
      (DualApi.processServerData n o).get "online" = .bool b) ∧
    (∀ (n o : JSVal) (L : List JSVal), getPath o ["players", "list"] = .arr L →
      getPath (DualApi.processServerData n o) ["players", "list"] = .arr L) ∧
    (∀ (n o : JSVal), truthy (getPath o ["players", "list"]) = false →
      getPath (DualApi.processServerData n o) ["players", "list"] = .arr []) ∧
    (getPath (DualApi.processServerData
        (.obj [("code", .num 200), ("online", .bool true)])
        (.obj [("players", .obj [("list", .arr [.str "Alice", .str "Bob"])])]))
        ["players", "list"] = .arr [.str "Alice", .str "Bob"]) ∧
    ((DualApi.processServerData
        (.obj [("code", .num 200), ("online", .bool true)])
        (.obj [("players", .obj [("list", .arr [.str "Alice", .str "Bob"])])])).get "online" =
      .bool true) := by
  refine ⟨?_, ?_, ?_, rfl, rfl⟩
  · intro n o b h
    have hproj : (DualApi.processServerData n o).get "online" =
        jsOr (n.get "online") (.bool false) := rfl
    rw [hproj, h]
    cases b <;> rfl
  · intro n o L h
    have h' : (o.get "players").get "list" = .arr L := h
    have hl : truthy ((o.get "players").get "list") = true := by rw [h']; rfl
    have hp : truthy (o.get "players") = true :=
      truthy_of_get_ne_undefined (k := "list") (by rw [h']; exact fun hh => JSVal.noConfusion hh)
    have ho : truthy o = true :=
      truthy_of_get_ne_undefined (k := "players") (ne_undefined_of_truthy hp)
    have hproj : getPath (DualApi.processServerData n o) ["players", "list"] =
        (if truthy o && truthy (o.get "players") && truthy ((o.get "players").get "list") then
          (o.get "players").get "list" else .arr []) := rfl
    rw [hproj, ho, hp, hl]
    simpa using h'
  · intro n o h
    have h' : truthy ((o.get "players").get "list") = false := h
    have hproj : getPath (DualApi.processServerData n o) ["players", "list"] =
        (if truthy o && truthy (o.get "players") && truthy ((o.get "players").get "list") then
          (o.get "players").get "list" else .arr []) := rfl
    rw [hproj, h']
    simp

/-- Witness for C4 at a concrete primary flag and legacy list. -/
theorem merge_online_primary_list_legacy_witness :
    getPath (DualApi.processServerData
      (.obj [("code", .num 200), ("online", .bool false)])
      (.obj [("players", .obj [("list", .arr [.str "Alice"])])]))
      ["players", "list"] = .arr [.str "Alice"] :=
  merge_online_primary_list_legacy.2.1
    (.obj [("code", .num 200), ("online", .bool false)])
    (.obj [("players", .obj [("list", .arr [.str "Alice"])])]) [.str "Alice"] rfl

/-- Counterexample to C5 as stated: with a primary response carrying
`players: 0` and `max_players: 10` and a legacy response carrying
`players: {online: 5, max: 20}`, the merged `players.online` is `5`, not
the primary's `0` — `||` treats the present-but-zero primary field as
absent. -/
theorem players_count_zero_not_preferred :
    getPath (DualApi.processServerData
      (.obj [("code", .num 200), ("online", .bool true), ("players", .num 0),
        ("max_players", .num 10)])
      (.obj [("players", .obj [("online", .num 5), ("max", .num 20)])]))
      ["players", "online"] = .num 5
    ∧ JSVal.num 5 ≠ JSVal.num 0 := by
  refine ⟨rfl, fun h => ?_⟩
  injection h with h'
  norm_num at h'

/-- C5 (amended): `players.online` / `players.max` take the primary
response's `players` / `max_players` field when that field is truthy
(present and nonzero); when it is falsy — including a present value `0` —
the legacy `players` object's corresponding field is used when that
object is truthy (even if the field itself is then absent), and the
literal `0` is used when the legacy `players` object is falsy or the
legacy response is absent. -/
theorem players_counts_tiebreak :
    (∀ (n o : JSVal) (q : ℚ), q ≠ 0 → n.get "players" = .num q →
      getPath (DualApi.processServerData n o) ["players", "online"] = .num q) ∧
    (∀ (n o : JSVal) (q : ℚ), q ≠ 0 → n.get "max_players" = .num q →
      getPath (DualApi.processServerData n o) ["players", "max"] = .num q) ∧
    (∀ (n o : JSVal), truthy (n.get "players") = false →
      truthy (jsAnd o (o.get "players")) = true →
      getPath (DualApi.processServerData n o) ["players", "online"] =
        (o.get "players").get "online") ∧
    (∀ (n o : JSVal), truthy (n.get "max_players") = false →
      truthy (jsAnd o (o.get "players")) = true →
      getPath (DualApi.processServerData n o) ["players", "max"] =
        (o.get "players").get "max") ∧
    (∀ (n o : JSVal), truthy (n.get "players") = false →
      truthy (jsAnd o (o.get "players")) = false →
      getPath (DualApi.processServerData n o) ["players", "online"] = .num 0) ∧
    (∀ (n o : JSVal), truthy (n.get "max_players") = false →
      truthy (jsAnd o (o.get "players")) = false →
      getPath (DualApi.processServerData n o) ["players", "max"] = .num 0) := by
  have honline : ∀ n o : JSVal,
      getPath (DualApi.processServerData n o) ["players", "online"] =
        jsOr (n.get "players")
          (if truthy (jsAnd o (o.get "players")) then (o.get "players").get "online"
           else .num 0) := fun n o => rfl
  have hmax : ∀ n o : JSVal,
      getPath (DualApi.processServerData n o) ["players", "max"] =
        jsOr (n.get "max_players")
          (if truthy (jsAnd o (o.get "players")) then (o.get "players").get "max"
           else .num 0) := fun n o => rfl
  refine ⟨?_, ?_, ?_, ?_, ?_, ?_⟩
  · intro n o q hq h
    rw [honline, h, jsOr_of_truthy _ (by simp [truthy, hq])]
  · intro n o q hq h
    rw [hmax, h, jsOr_of_truthy _ (by simp [truthy, hq])]
  · intro n o h1 h2
    rw [honline, jsOr_of_falsy _ h1, if_pos h2]
  · intro n o h1 h2
    rw [hmax, jsOr_of_falsy _ h1, if_pos h2]
  · intro n o h1 h2
    rw [honline, jsOr_of_falsy _ h1, if_neg (by simp [h2])]
  · intro n o h1 h2
    rw [hmax, jsOr_of_falsy _ h1, if_neg (by simp [h2])]

/-- Witness for the amended C5: a nonzero primary count is preferred. -/
theorem players_counts_tiebreak_witness :
    getPath (DualApi.processServerData
      (.obj [("code", .num 200), ("online", .bool true), ("players", .num 7)])
      (.obj [("players", .obj [("online", .num 5), ("max", .num 20)])]))
      ["players", "online"] = .num 7 :=
  players_counts_tiebreak.1
    (.obj [("code", .num 200), ("online", .bool true), ("players", .num 7)])
    (.obj [("players", .obj [("online", .num 5), ("max", .num 20)])]) 7
    (by norm_num) rfl

/-! ### C6: `debug.ping` normalization. -/

/-- C6: on the merged/primary path of `part_000` the normalized
`debug.ping` is always `null`; in the `script.js` normalizer a numeric
legacy ping is rounded with `Math.round` (`42.7` becomes `43`), and a
boolean or absent ping becomes `null` (in particular `true` becomes
`null`). -/
theorem debug_ping_normalized :
    (∀ n o : JSVal, getPath (DualApi.processServerData n o) ["debug", "ping"] = .null) ∧
    (∀ (d : JSVal) (q : ℚ), getPath d ["debug", "ping"] = .num q →
      getPath (ScriptJs.processServerData d) ["debug", "ping"] = .num ((jsRound q : ℤ) : ℚ)) ∧
    (getPath (ScriptJs.processServerData (.obj [("debug", .obj [("ping", .num (427/10))])]))
      ["debug", "ping"] = .num 43) ∧
    (∀ d : JSVal, getPath d ["debug", "ping"] = .bool true →
      getPath (ScriptJs.processServerData d) ["debug", "ping"] = .null) ∧
    (∀ d : JSVal, getPath d ["debug", "ping"] = .bool false →
      getPath (ScriptJs.processServerData d) ["debug", "ping"] = .null) ∧
    (∀ d : JSVal, nonNullish d → getPath d ["debug", "ping"] = .undefined →
      getPath (ScriptJs.processServerData d) ["debug", "ping"] = .null) := by
  have hproj : ∀ d : JSVal, getPath (ScriptJs.processServerData d) ["debug", "ping"] =
      ScriptJs.normalizePing ((d.get "debug").get "ping") := fun d => rfl
  refine ⟨fun n o => rfl, ?_, ?_, ?_, ?_, ?_⟩
  · intro d q h
    have h' : (d.get "debug").get "ping" = .num q := h
    rw [hproj, h']
    rfl
  · have hfloor : jsRound (427/10) = 43 := by
      unfold jsRound
      rw [Int.floor_eq_iff]
      norm_num
    rw [hproj]
    show ScriptJs.normalizePing (.num (427/10)) = .num 43
    rw [show ScriptJs.normalizePing (.num (427/10)) =
      .num ((jsRound (427/10) : ℤ) : ℚ) from rfl, hfloor]
    norm_num
  · intro d h
    have h' : (d.get "debug").get "ping" = .bool true := h
    rw [hproj, h']
    rfl
  · intro d h
    have h' : (d.get "debug").get "ping" = .bool false := h
    rw [hproj, h']
    rfl
  · intro d hd h
    have h' : (d.get "debug").get "ping" = .undefined := h
    rw [hproj, h']
    rfl

/-- Witness for C6 at a concrete response whose legacy ping is the number
`42.7`. -/
theorem debug_ping_normalized_witness :
    getPath (ScriptJs.processServerData (.obj [("debug", .obj [("ping", .num (427/10))])]))
      ["debug", "ping"] = .num ((jsRound (427/10) : ℤ) : ℚ) :=
  debug_ping_normalized.2.1 (.obj [("debug", .obj [("ping", .num (427/10))])]) (427/10) rfl

/-! ### C7: the reset-marker handling of `renderMOTD` in `script.js`. -/

/-- C7 (code evaluation at the failing input): because `r` is included in
the first replacement's character class `[0-9a-fk-or]`, a reset marker
`§r` is rewritten to `</span><span class="mc-color-r">` and the dedicated
`/§r/g` → `</span><span>` replacement never fires; the output is still
balanced span markup, but the span opened for the reset marker is the
styled `mc-color-r` one, not the plain `<span>` the specification
describes. -/
theorem renderMOTD_reset_marker_not_plain :
    ScriptJs.renderLines ["§aHello§r World"] =
      "<span></span><span class=\"mc-color-a\">Hello</span><span class=\"mc-color-r\"> World</span>"
    ∧ ScriptJs.renderMOTD (.arr [.str "§aHello§r World"]) =
      some "<span></span><span class=\"mc-color-a\">Hello</span><span class=\"mc-color-r\"> World</span>"
    ∧ ScriptJs.renderLines ["§r"] = "<span></span><span class=\"mc-color-r\"></span>"
    ∧ ScriptJs.renderLines ["§r"] ≠ "<span></span><span></span>" := by
  refine ⟨rfl, rfl, rfl, ?_⟩
  intro h
  have h2 : ("<span></span><span class=\"mc-color-r\"></span>" : String) =
      "<span></span><span></span>" := by
    rw [← h]
    rfl
  simp at h2

/-! ### C8: which fields of a returned `ServerStatus` are always defined. -/

/-- Counterexample to C8 as stated: with a valid primary response lacking
`players` and a legacy response whose `players` object lacks `online`,
the merged `players.online` is `undefined`; and on the fresh path the
returned value's `error` field is `undefined` as well — so not every
schema field is populated. -/
theorem status_fields_missing_cx :
    getPath (DualApi.processServerData
        (.obj [("code", .num 200), ("online", .bool true)])
        (.obj [("players", .obj [("max", .num 10)])]))
      ["players", "online"] = .undefined
    ∧ ((getServerStatus ⟨[], 30000⟩ "a" 0
        (some (DualApi.processServerData
          (.obj [("code", .num 200), ("online", .bool true)])
          (.obj [("players", .obj [("max", .num 10)])])))).result.map
        (fun r => r.get "error")) = .ok .undefined := by
  exact ⟨rfl, rfl⟩

/-- The canonical-schema paths (other than `players.online`,
`players.max`, `fromCache` and `error`) of the merged status object. -/
def canonicalPaths : List (List String) :=
  [["online"], ["ip"], ["port"], ["hostname"], ["icon"], ["version"],
   ["protocol"], ["protocolName"], ["players", "list"],
   ["motd", "raw"], ["motd", "clean"], ["motd", "html"],
   ["debug", "ping"], ["debug", "query"], ["debug", "cacheHit"],
   ["software"], ["gamemode"], ["map"], ["plugins"]]

theorem psd_icon_ne_undefined (n o : JSVal) :
    getPath (DualApi.processServerData n o) ["icon"] ≠ .undefined := by
  show (if truthy o && truthy (o.get "icon") then o.get "icon"
    else if truthy (n.get "favicon_url") then n.get "favicon_url"
    else JSVal.null) ≠ JSVal.undefined
  split
  · next h =>
    simp only [Bool.and_eq_true] at h
    exact ne_undefined_of_truthy h.2
  · split
    · next h2 => exact ne_undefined_of_truthy h2
    · exact fun h => JSVal.noConfusion h

theorem psd_players_list_ne_undefined (n o : JSVal) :
    getPath (DualApi.processServerData n o) ["players", "list"] ≠ .undefined := by
  show (if truthy o && truthy (o.get "players") && truthy ((o.get "players").get "list") then
    (o.get "players").get "list" else JSVal.arr []) ≠ JSVal.undefined
  split
  · next h =>
    simp only [Bool.and_eq_true] at h
    exact ne_undefined_of_truthy h.2
  · exact fun h => JSVal.noConfusion h

/-- C8 (amended): every canonical-schema field of the merged status other
than `players.online`, `players.max`, `fromCache` and `error` is always
defined (missing upstream data replaced by the typed defaults);
`players.online` / `players.max` are defined whenever the legacy response
supplies them, or whenever the legacy `players` object is absent/falsy —
they are `undefined` exactly when a falsy primary field falls through to
a legacy `players` object that lacks the field; `fromCache` is defined on
every value `getServerStatus` returns; and the two fall-through defaults
are the number `0`. -/
theorem status_fields_populated :
    (∀ (n o : JSVal), ∀ p ∈ canonicalPaths,
      getPath (DualApi.processServerData n o) p ≠ .undefined) ∧
    (∀ (n o : JSVal), getPath o ["players", "online"] ≠ .undefined →
      getPath (DualApi.processServerData n o) ["players", "online"] ≠ .undefined) ∧
    (∀ (n o : JSVal), getPath o ["players", "max"] ≠ .undefined →
      getPath (DualApi.processServerData n o) ["players", "max"] ≠ .undefined) ∧
    (∀ (n o : JSVal), truthy (n.get "players") = false →
      truthy (jsAnd o (o.get "players")) = false →
      getPath (DualApi.processServerData n o) ["players", "online"] = .num 0) ∧
    (∀ (m : Manager) (addr : String) (now : ℤ) (fetched : Option JSVal) (r : JSVal),
      (getServerStatus m addr now fetched).result = .ok r →
      r.get "fromCache" ≠ .undefined) := by
  refine ⟨?_, ?_, ?_, ?_, ?_⟩
  · intro n o p hp
    simp only [canonicalPaths, List.mem_cons, List.not_mem_nil, or_false] at hp
    rcases hp with rfl | rfl | rfl | rfl | rfl | rfl | rfl | rfl | rfl | rfl | rfl | rfl |
      rfl | rfl | rfl | rfl | rfl | rfl | rfl
    · exact jsOr_ne_undefined fun h => JSVal.noConfusion h
    · exact jsOr_ne_undefined (jsOr_ne_undefined fun h => JSVal.noConfusion h)
    · exact jsOr_ne_undefined (jsOr_ne_undefined fun h => JSVal.noConfusion h)
    · exact jsOr_ne_undefined (jsOr_ne_undefined fun h => JSVal.noConfusion h)
    · exact psd_icon_ne_undefined n o
    · exact jsOr_ne_undefined (jsOr_ne_undefined fun h => JSVal.noConfusion h)
    · exact jsOr_ne_undefined fun h => JSVal.noConfusion h
    · exact jsOr_ne_undefined fun h => JSVal.noConfusion h
    · exact psd_players_list_ne_undefined n o
    · exact jsOr_ne_undefined fun h => JSVal.noConfusion h
    · exact fun h => JSVal.noConfusion h
    · exact fun h => JSVal.noConfusion h
    · exact fun h => JSVal.noConfusion h
    · exact jsOr_ne_undefined fun h => JSVal.noConfusion h
    · exact fun h => JSVal.noConfusion h
    · exact jsOr_ne_undefined fun h => JSVal.noConfusion h
    · exact jsOr_ne_undefined fun h => JSVal.noConfusion h
    · exact jsOr_ne_undefined fun h => JSVal.noConfusion h
    · exact jsOr_ne_undefined fun h => JSVal.noConfusion h
  · intro n o h
    have h' : (o.get "players").get "online" ≠ .undefined := h
    show jsOr (n.get "players")
      (if truthy (jsAnd o (o.get "players")) then (o.get "players").get "online"
       else .num 0) ≠ .undefined
    refine jsOr_ne_undefined ?_
    split
    · exact h'
    · exact fun h2 => JSVal.noConfusion h2
  · intro n o h
    have h' : (o.get "players").get "max" ≠ .undefined := h
    show jsOr (n.get "max_players")
      (if truthy (jsAnd o (o.get "players")) then (o.get "players").get "max"
       else .num 0) ≠ .undefined
    refine jsOr_ne_undefined ?_
    split
    · exact h'
    · exact fun h2 => JSVal.noConfusion h2
  · intro n o h1 h2
    have hproj : getPath (DualApi.processServerData n o) ["players", "online"] =
        jsOr (n.get "players")
          (if truthy (jsAnd o (o.get "players")) then (o.get "players").get "online"
           else .num 0) := rfl
    rw [hproj, jsOr_of_falsy _ h1, if_neg (by simp [h2])]
  · intro m addr now fetched r h
    cases hko : m.cache.lookup addr with
    | none =>
      cases fetched with
      | none => simp [getServerStatus, getAttempt, hko] at h
      | some fresh =>
        simp [getServerStatus, getAttempt, hko] at h
        subst h
        rw [objSet_get_same]
        exact fun hh => JSVal.noConfusion hh
    | some e =>
      by_cases hf : now - e.timestamp < m.cacheTimeout
      · simp [getServerStatus, hko, hf] at h
        subst h
        rw [objSet_get_same]
        exact fun hh => JSVal.noConfusion hh
      · cases fetched with
        | none =>
          simp [getServerStatus, getAttempt, hko, hf] at h
          subst h
          rw [objSet_get_other _ _ _ _ (by decide), objSet_get_same]
          exact fun hh => JSVal.noConfusion hh
        | some fresh =>
          simp [getServerStatus, getAttempt, hko, hf] at h
          subst h
          rw [objSet_get_same]
          exact fun hh => JSVal.noConfusion hh

/-- Witness for the amended C8: the fall-through default `0` at a
concrete merge with no legacy response. -/
theorem status_fields_populated_witness :
    getPath (DualApi.processServerData
      (.obj [("code", .num 200), ("online", .bool true)]) .null)
      ["players", "online"] = .num 0 :=
  status_fields_populated.2.2.2.1
    (.obj [("code", .num 200), ("online", .bool true)]) .null rfl rfl

/-! ### C9: what the spread copy in `getServerStatus` does and does not
protect.  JavaScript objects live on a heap and `{...data, fromCache:
true}` copies only the top-level slots, so the nested `players`, `motd`
and `debug` objects of the copy are the very same heap objects as the
cache entry's.  The heap is made explicit: status objects and their
nested `players` records are stored at numeric references. -/

/-- The top-level slots of a status object: scalar fields are copied by
value by a spread, nested records only by reference. -/
structure StatusTop where
  online : Bool
  players : ℕ
  motd : ℕ
  debug : ℕ
  fromCache : Option Bool
  errorFlag : Option Bool

/-- The nested `players` record of a status object. -/
structure PlayersRec where
  online : ℤ
  max : ℤ

/-- A heap of status objects and nested `players` records, keyed by
reference. -/
structure Store where
  tops : List (ℕ × StatusTop)
  playersH : List (ℕ × PlayersRec)

/-- A reference unused by the status-object heap. -/
def freshRef (tops : List (ℕ × StatusTop)) : ℕ :=
  tops.foldr (fun kv acc => max (kv.1 + 1) acc) 0

theorem lookup_none_of_freshRef_le (tops : List (ℕ × StatusTop)) :
    ∀ n : ℕ, freshRef tops ≤ n → tops.lookup n = none := by
  induction tops with
  | nil => intro n _; rfl
  | cons kv rest ih =>
    intro n hn
    simp only [freshRef, List.foldr] at hn
    have h1 : kv.1 + 1 ≤ n := le_trans (le_max_left _ _) hn
    have h2 : freshRef rest ≤ n := le_trans (le_max_right _ _) hn
    have hne : (n == kv.1) = false := by
      simp only [beq_eq_false_iff_ne]
      omega
    obtain ⟨k0, v0⟩ := kv
    simpa [List.lookup, hne] using ih n h2

/-- The spread `{...cached.data, fromCache: fc}` on the heap: read the
status object at `dataRef`, allocate a fresh top-level object with the
same slot values (so the same nested references) and the overridden
`fromCache`; the nested heaps are untouched. -/
def spreadStatus (s : Store) (dataRef : ℕ) (fc : Bool) : Store × ℕ :=
  match s.tops.lookup dataRef with
  | some t =>
    let r := freshRef s.tops
    ({ s with tops := (r, { t with fromCache := some fc }) :: s.tops }, r)
  | none => (s, dataRef)

/-- A caller's top-level mutation `status.online = b` through a status
reference. -/
def setTopOnline (s : Store) (topRef : ℕ) (b : Bool) : Store :=
  match s.tops.lookup topRef with
  | some t => { s with tops := updAssoc s.tops topRef { t with online := b } }
  | none => s

/-- A caller's nested mutation `status.players.online = v` through a
status reference: it writes the `players` record the status points to. -/
def setPlayersOnline (s : Store) (topRef : ℕ) (v : ℤ) : Store :=
  match s.tops.lookup topRef with
  | some t =>
    match s.playersH.lookup t.players with
    | some p => { s with playersH := updAssoc s.playersH t.players { p with online := v } }
    | none => s
  | none => s

/-- Reading `entry.data.players.online` of a cache entry whose data lives
at `topRef`. -/
def readPlayersOnline (s : Store) (topRef : ℕ) : Option ℤ :=
  match s.tops.lookup topRef with
  | some t => (s.playersH.lookup t.players).map PlayersRec.online
  | none => none

/-- Counterexample to C9 as stated: a concrete cache entry at reference 0
whose `players` record holds `online = 5`; the value handed to the caller
by the cache-hit spread is a fresh top object (reference 1), yet a caller
mutation `status.players.online = 999` through it changes the cache
entry's own data to `999`. -/
theorem cache_entry_mutated_through_returned_copy :
    (spreadStatus ⟨[(0, ⟨true, 0, 0, 0, none, none⟩)], [(0, ⟨5, 20⟩)]⟩ 0 true).2 = 1
    ∧ readPlayersOnline
        (spreadStatus ⟨[(0, ⟨true, 0, 0, 0, none, none⟩)], [(0, ⟨5, 20⟩)]⟩ 0 true).1 0 = some 5
    ∧ readPlayersOnline
        (setPlayersOnline
          (spreadStatus ⟨[(0, ⟨true, 0, 0, 0, none, none⟩)], [(0, ⟨5, 20⟩)]⟩ 0 true).1
          1 999) 0 = some 999 := by
  exact ⟨rfl, rfl, rfl⟩

/-- C9 (amended): the value returned by the cache-hit path is a fresh
top-level object — a *shallow* copy: it carries the same `players`,
`motd` and `debug` references as the cache entry's data, so top-level
mutations by the caller leave the entry untouched, but a mutation of the
nested `players` record through the returned value is visible when the
entry's own data is read. -/
theorem returned_status_is_shallow_copy
    (s : Store) (dataRef : ℕ) (fc : Bool) (t : StatusTop)
    (ht : s.tops.lookup dataRef = some t) :
    (spreadStatus s dataRef fc).2 ≠ dataRef
    ∧ (spreadStatus s dataRef fc).1.tops.lookup (spreadStatus s dataRef fc).2 =
        some { t with fromCache := some fc }
    ∧ (spreadStatus s dataRef fc).1.tops.lookup dataRef = some t
    ∧ (∀ b : Bool,
        (setTopOnline (spreadStatus s dataRef fc).1 (spreadStatus s dataRef fc).2 b).tops.lookup
          dataRef = some t)
    ∧ (∀ (p : PlayersRec) (v : ℤ), s.playersH.lookup t.players = some p →
        readPlayersOnline
          (setPlayersOnline (spreadStatus s dataRef fc).1 (spreadStatus s dataRef fc).2 v)
          dataRef = some v) := by
  have hfresh : s.tops.lookup (freshRef s.tops) = none :=
    lookup_none_of_freshRef_le s.tops (freshRef s.tops) (le_refl _)
  have hne : freshRef s.tops ≠ dataRef := by
    intro heq
    rw [heq, ht] at hfresh
    exact Option.noConfusion hfresh
  have hspread : spreadStatus s dataRef fc =
      ({ s with tops := (freshRef s.tops, { t with fromCache := some fc }) :: s.tops },
        freshRef s.tops) := by
    simp [spreadStatus, ht]
  have hlookNew : ((freshRef s.tops, { t with fromCache := some fc }) :: s.tops).lookup
      (freshRef s.tops) = some { t with fromCache := some fc } := by
    simp [List.lookup]
  have hlookOld : ((freshRef s.tops, { t with fromCache := some fc }) :: s.tops).lookup
      dataRef = some t := by
    have : (dataRef == freshRef s.tops) = false :=
      beq_eq_false_iff_ne.mpr (Ne.symm hne)
    simp [List.lookup, this, ht]
  refine ⟨?_, ?_, ?_, ?_, ?_⟩
  · rw [hspread]
    exact hne
  · rw [hspread]
    exact hlookNew
  · rw [hspread]
    exact hlookOld
  · intro b
    rw [hspread]
    simp only [setTopOnline, hlookNew]
    rw [lookup_updAssoc_other _ _ _ _ (Ne.symm hne)]
    exact hlookOld
  · intro p v hp
    rw [hspread]
    simp only [setPlayersOnline, hlookNew, readPlayersOnline]
    simp only [hp]
    simp only [hlookOld]
    rw [lookup_updAssoc_self]
    rfl

/-- Witness for the amended C9 at the concrete one-entry store. -/
theorem returned_status_is_shallow_copy_witness :
    readPlayersOnline
      (setPlayersOnline
        (spreadStatus ⟨[(0, ⟨true, 0, 0, 0, none, none⟩)], [(0, ⟨5, 20⟩)]⟩ 0 true).1
        (spreadStatus ⟨[(0, ⟨true, 0, 0, 0, none, none⟩)], [(0, ⟨5, 20⟩)]⟩ 0 true).2
        7) 0 = some 7 :=
  (returned_status_is_shallow_copy
    ⟨[(0, ⟨true, 0, 0, 0, none, none⟩)], [(0, ⟨5, 20⟩)]⟩ 0 true
    ⟨true, 0, 0, 0, none, none⟩ rfl).2.2.2.2 ⟨5, 20⟩ 7 rfl

/-! ### C10: totality of `renderMOTD` at the public interface. -/

/-- Counterexample to C10 as stated: the `script.js` `renderMOTD` is not
total over arbitrary inputs — an array containing a non-string element
makes the `line.replace` call inside `.map` throw a `TypeError`
(modelled by `none`). -/
theorem renderMOTD_nonstring_element_throws :
    ScriptJs.renderMOTD (.arr [.num 42]) = none := rfl

/-- C10 (amended): on every input that is null, undefined or not an
array, both revisions' `renderMotd` return the empty string rather than
failing; the `part_000` revision (a plain `join`) is total on every
array as well, while the `script.js` revision is total exactly on arrays
of strings — a non-string element throws. -/
theorem renderMOTD_guard_and_totality :
    (∀ v : JSVal, isArray v = false →
      ScriptJs.renderMOTD v = some "" ∧ DualApi.renderMOTD v = "") ∧
    (∀ ls : List String,
      ScriptJs.renderMOTD (.arr (ls.map JSVal.str)) = some (ScriptJs.renderLines ls)) ∧
    (∀ xs : List JSVal, DualApi.renderMOTD (.arr xs) = joinWithSep "<br>" xs) := by
  refine ⟨?_, ?_, ?_⟩
  · intro v h
    constructor
    · simp only [ScriptJs.renderMOTD, h]
      simp
    · simp only [DualApi.renderMOTD, h]
      simp
  · intro ls
    have hmap : ScriptJs.mapLines (ls.map JSVal.str) = some ls := by
      induction ls with
      | nil => rfl
      | cons a rest ih => simp [ScriptJs.mapLines, ScriptJs.asStr, ih]
    have hunfold : ScriptJs.renderMOTD (.arr (ls.map JSVal.str)) =
        (ScriptJs.mapLines (ls.map JSVal.str)).map ScriptJs.renderLines := rfl
    rw [hunfold, hmap]
    rfl
  · intro xs
    simp [DualApi.renderMOTD, truthy, isArray]

/-- Witness for the amended C10 at the concrete non-array input `null`. -/
theorem renderMOTD_guard_and_totality_witness :
    ScriptJs.renderMOTD .null = some "" ∧ DualApi.renderMOTD .null = "" :=
  renderMOTD_guard_and_totality.1 .null rfl
